import Mathlib

/-!
# Ultralite: a shallow embedding of `ultralite.py`

This file embeds the data model and operations of the Ultralite HTTP
convenience layer (a single-module Python library) and proves properties
of its request construction, transport resolution, response wrapping and
request chaining.

Modelling conventions:
* Python dictionaries of string keys/values are association lists
  (`Dict`); `dict.update` is `dictUpdate`.
* Raised exceptions are `Except Fault _`; the four fault classes relevant
  to the claims (`UltraliteError`, `UltraliteSSLError`,
  `NotImplementedError`, `TypeError`) are the constructors of `Fault`.
* The network is abstract: an opener's `urlopen` behaviour is a function
  `Request → OpenResult`, where `OpenResult` covers the three outcome
  shapes the code dispatches on (an `http.client.HTTPResponse`, a raised
  `urllib.error.HTTPError`, a raised other `urllib.error.URLError`).
* `ssl.create_default_context()` may fail for environment reasons; that
  environment outcome is the `SSLSetup` parameter.
* Byte strings are `List Nat` (each entry < 256 at use sites).
-/

namespace Ultralite

/-- String→string mapping (a Python `dict` of headers or parameters). -/
abbrev Dict := List (String × String)

/-- Lookup in a `Dict` (first binding wins; the dicts built here have
unique keys, mirroring Python `dict` semantics). -/
def dlookup (d : Dict) (k : String) : Option String :=
  match d with
  | [] => none
  | (k', v) :: rest => if k' == k then some v else dlookup rest k

/-- Python `d1.copy()` followed by `.update(d2)`: every key of `d2` maps to
its `d2` value, remaining keys of `d1` keep their `d1` value. -/
def dictUpdate (d1 d2 : Dict) : Dict :=
  d1.filter (fun p => !(d2.any (fun q => q.1 == p.1))) ++ d2

/-- Python `url.startswith(pre)`. -/
def startswith (s pre : String) : Bool :=
  pre.data.isPrefixOf s.data

/-- A cookie as far as this module observes it: a name/value pair
(`http.cookiejar.Cookie` metadata is not inspected by the code). -/
structure Cookie where
  name : String
  value : String
deriving DecidableEq, Repr

/-- `http.cookiejar.CookieJar` contents. -/
abbrev CookieJar := List Cookie

/-- A handler attached to an opener: the `HTTPSHandler` built from an SSL
context, or an `HTTPCookieProcessor` wrapping a cookie jar. -/
inductive Handler where
  | sslHandler (ctx : Nat)
  | cookieProcessor (jar : CookieJar)
deriving DecidableEq, Repr

/-- The environment outcome of `ssl.create_default_context()` inside
`create_ssl_handler`: either a usable context or an exception message. -/
inductive SSLSetup where
  | ok (ctx : Nat)
  | fail (msg : String)
deriving DecidableEq, Repr

/-- The exception classes this module raises. `ultraliteError` is
`Ultralite.UltraliteError`, `sslError` is `Ultralite.UltraliteSSLError`
(a distinct class not deriving from the former), `notImplementedError`
is Python's `NotImplementedError`, `typeError` is Python's `TypeError`. -/
inductive Fault where
  | ultraliteError (msg : String)
  | sslError (msg : String)
  | notImplementedError (msg : String)
  | typeError (msg : String)
deriving DecidableEq, Repr

/-- A `urllib.request.Request` descriptor as this module uses it:
method, URL, header dict, and the `using_ssl` attribute the module
attaches after construction (modelled as a field, `false` until set). -/
structure Request where
  method : String
  url : String
  headers : Dict
  using_ssl : Bool
deriving DecidableEq, Repr

/-- What `opener.open(req)` produces, covering the three shapes
`UltraliteResponse.__init__` dispatches on:
an `http.client.HTTPResponse` (success), a raised `urllib.error.HTTPError`
(protocol error, which still carries status/headers and a payload the
code ignores), or a raised other `urllib.error.URLError` (transport
failure, carrying only a reason). -/
inductive OpenResult where
  | success (status : Int) (reason : String) (headers : Dict) (body : List Nat)
  | httpError (code : Int) (reason : String) (headers : Dict) (body : List Nat)
  | urlError (reason : String)
deriving Repr

/-- A `urllib.request.OpenerDirector` built by `build_opener(*handlers)`:
its attached handlers, and its exchange behaviour (abstract network). -/
structure Opener where
  handlers : List Handler
  openF : Request → OpenResult

/-- `urllib.request.build_opener(*handlers)` for an ambient network
behaviour `env` that the resulting opener's `open` follows. -/
def build_opener (env : List Handler → Request → OpenResult) (handlers : List Handler) : Opener :=
  { handlers := handlers, openF := env handlers }

/-- `Ultralite.UltraliteResponse` after `__init__`: stores the request,
the raw exchange result, the transport context, and the normalized
`headers` / `status_code` / `reason` / `content` fields. `cookiejarCache`
models the lazily created `_cookiejar` attribute (`none` = not yet set). -/
structure UltraliteResponse where
  request : Request
  raw : OpenResult
  request_context : Opener
  headers : Dict
  status_code : Int
  reason : String
  content : List Nat
  cookiejarCache : Option CookieJar

/-- `UltraliteResponse.__init__(request, response, request_context)`:
dispatch on the shape of `response`.  An `HTTPResponse` populates all
four fields from the exchange (`content = response.read()`); an
`HTTPError` keeps its code/reason/headers but sets `content = b''`
(its payload is ignored); any other `URLError` yields the sentinel
status `-1`, empty headers and empty content, keeping only the reason. -/
def mkResponse (request : Request) (response : OpenResult) (request_context : Opener) :
    UltraliteResponse :=
  match response with
  | .success status reason hdrs body =>
      { request := request, raw := response, request_context := request_context,
        headers := hdrs, status_code := status, reason := reason,
        content := body, cookiejarCache := none }
  | .httpError code reason hdrs _body =>
      { request := request, raw := response, request_context := request_context,
        headers := hdrs, status_code := code, reason := reason,
        content := [], cookiejarCache := none }
  | .urlError reason =>
      { request := request, raw := response, request_context := request_context,
        headers := [], status_code := -1, reason := reason,
        content := [], cookiejarCache := none }

/-- Uppercase hex digit of `n < 16`. -/
def hexUpper (n : Nat) : Char :=
  if n < 10 then Char.ofNat (48 + n) else Char.ofNat (55 + n)

/-- Percent-encoding of one byte, `%XX` with uppercase hex. -/
def percentEncodeByte (b : Nat) : List Char :=
  ['%', hexUpper (b / 16), hexUpper (b % 16)]

/-- UTF-8 encoding of a Unicode scalar value. -/
def utf8EncodeCodepoint (n : Nat) : List Nat :=
  if n ≤ 0x7F then [n]
  else if n ≤ 0x7FF then [0xC0 + n / 0x40, 0x80 + n % 0x40]
  else if n ≤ 0xFFFF then
    [0xE0 + n / 0x1000, 0x80 + (n / 0x40) % 0x40, 0x80 + n % 0x40]
  else
    [0xF0 + n / 0x40000, 0x80 + (n / 0x1000) % 0x40,
     0x80 + (n / 0x40) % 0x40, 0x80 + n % 0x40]

/-- Characters `urllib.parse.quote_plus` never encodes: ASCII letters,
digits, and `_ . - ~`. -/
def quoteSafeChar (c : Char) : Bool :=
  c.isAlpha || c.isDigit || c == '_' || c == '.' || c == '-' || c == '~'

/-- Character-level body of `urllib.parse.quote_plus`: safe characters
pass through, a space becomes `+`, anything else is the percent-encoding
of its UTF-8 bytes. -/
def quotePlusChars : List Char → List Char
  | [] => []
  | c :: cs =>
    if quoteSafeChar c then c :: quotePlusChars cs
    else if c == ' ' then '+' :: quotePlusChars cs
    else ((utf8EncodeCodepoint c.toNat).map percentEncodeByte).flatten ++ quotePlusChars cs

/-- `urllib.parse.quote_plus` on a string. -/
def quote_plus (s : String) : String :=
  ⟨quotePlusChars s.data⟩

/-- One `key=value` component of an encoded query string. -/
def encodePair (kv : String × String) : String :=
  quote_plus kv.1 ++ "=" ++ quote_plus kv.2

/-- Python `"&".join(pieces)`. -/
def joinAmp : List String → String
  | [] => ""
  | [s] => s
  | s :: rest => s ++ "&" ++ joinAmp rest

/-- `urllib.parse.urlencode(params)` for a dict of string pairs. -/
def urlencode (params : Dict) : String :=
  joinAmp (params.map encodePair)

/-- `Ultralite.construct_request(method, url, *, params=None, headers={})`.
The source computes `outbound_headers` (defaults overlaid with the
caller's headers) but then passes the plain `headers` argument to
`urllib.request.Request`, leaving `outbound_headers` unused; the model
reproduces that faithfully.  `defaults` is the class attribute
`_default_headers`.  The `using_ssl` attribute does not exist yet at this
point in the source; it is `false` here until a caller sets it. -/
def construct_request (defaults : Dict) (method url : String)
    (params : Option Dict) (headers : Dict) : Request :=
  let _outbound_headers := dictUpdate defaults headers
  let url := match params with
    | some ps => url ++ ("?" ++ urlencode ps)
    | none => url
  { method := method, url := url, headers := headers, using_ssl := false }

/-- `Ultralite.create_ssl_handler()`: build an `HTTPSHandler` from
`ssl.create_default_context()`; any exception is converted into an
`UltraliteSSLError` ("HALT AND CATCH FIRE"). -/
def create_ssl_handler : SSLSetup → Except Fault Handler
  | .ok ctx => .ok (.sslHandler ctx)
  | .fail msg => .error (.sslError ("Failed to establish SSL context: " ++ msg))

/-- `Ultralite.resolve_call(req, opener)`: perform the exchange, catching
`urllib.error.URLError` / `urllib.error.HTTPError` and handing whichever
result arose to `UltraliteResponse`; never raises. -/
def resolve_call (req : Request) (opener : Opener) : UltraliteResponse :=
  mkResponse req (opener.openF req) opener

/-- `Ultralite.call_method(method, url, *, headers={}, cookies=None,
params=None)` against ssl environment `sslSetup` and ambient network
behaviour `env`.  Builds the request, then: for an `https` URL appends a
mandatory SSL handler (propagating `UltraliteSSLError` on failure) and
sets `using_ssl = True`, otherwise sets it `False`; appends a cookie
processor when a jar is supplied; builds the opener and resolves. -/
def call_method (defaults : Dict) (sslSetup : SSLSetup)
    (env : List Handler → Request → OpenResult)
    (method url : String) (headers : Dict) (cookies : Option CookieJar)
    (params : Option Dict) : Except Fault UltraliteResponse :=
  let req := construct_request defaults method url params headers
  let sslStep : Except Fault (List Handler × Request) :=
    if startswith url "https" then
      match create_ssl_handler sslSetup with
      | .error e => .error e
      | .ok h => .ok ([h], { req with using_ssl := true })
    else
      .ok ([], { req with using_ssl := false })
  match sslStep with
  | .error e => .error e
  | .ok (handlers, req) =>
      let handlers := match cookies with
        | some jar => handlers ++ [Handler.cookieProcessor jar]
        | none => handlers
      .ok (resolve_call req (build_opener env handlers))

/-- `Ultralite.get(...)`. -/
def get (defaults : Dict) (sslSetup : SSLSetup)
    (env : List Handler → Request → OpenResult) (url : String)
    (headers : Dict) (cookies : Option CookieJar) (params : Option Dict) :
    Except Fault UltraliteResponse :=
  call_method defaults sslSetup env "GET" url headers cookies params

/-- `Ultralite.head(...)`. -/
def head (defaults : Dict) (sslSetup : SSLSetup)
    (env : List Handler → Request → OpenResult) (url : String)
    (headers : Dict) (cookies : Option CookieJar) (params : Option Dict) :
    Except Fault UltraliteResponse :=
  call_method defaults sslSetup env "HEAD" url headers cookies params

/-- `Ultralite.post(...)`: unconditionally raises `NotImplementedError`,
whatever the arguments; nothing is sent. -/
def post (_url : String) (_headers : Dict) (_cookies : Option CookieJar)
    (_params : Option Dict) : Except Fault UltraliteResponse :=
  .error (.notImplementedError "I'll get around to this bit.")

/-- `Ultralite.put(...)`: unconditionally raises `NotImplementedError`. -/
def put (_url : String) (_headers : Dict) (_cookies : Option CookieJar)
    (_params : Option Dict) : Except Fault UltraliteResponse :=
  .error (.notImplementedError "I'll get around to this bit.")

/-- `Ultralite.delete(...)`: unconditionally raises `NotImplementedError`. -/
def delete (_url : String) (_headers : Dict) (_cookies : Option CookieJar)
    (_params : Option Dict) : Except Fault UltraliteResponse :=
  .error (.notImplementedError "I'll get around to this bit.")

/-- Strict UTF-8 decoding of a byte list into Unicode scalar values, as
Python's `bytes.decode()` performs it: continuation bytes must be
`80..BF`, overlong forms, surrogates and codepoints above `10FFFF` are
rejected; `none` models a raised `UnicodeDecodeError`. -/
def utf8DecodeCodepoints : List Nat → Option (List Nat)
  | [] => some []
  | b0 :: bs =>
    if b0 < 0x80 then
      match utf8DecodeCodepoints bs with
      | some rest => some (b0 :: rest)
      | none => none
    else if b0 < 0xC2 then none
    else if b0 < 0xE0 then
      match bs with
      | b1 :: bs2 =>
        if 0x80 ≤ b1 ∧ b1 ≤ 0xBF then
          match utf8DecodeCodepoints bs2 with
          | some rest => some (((b0 - 0xC0) * 0x40 + (b1 - 0x80)) :: rest)
          | none => none
        else none
      | [] => none
    else if b0 < 0xF0 then
      match bs with
      | b1 :: b2 :: bs3 =>
        let lo1 := if b0 == 0xE0 then 0xA0 else 0x80
        let hi1 := if b0 == 0xED then 0x9F else 0xBF
        if lo1 ≤ b1 ∧ b1 ≤ hi1 ∧ 0x80 ≤ b2 ∧ b2 ≤ 0xBF then
          match utf8DecodeCodepoints bs3 with
          | some rest =>
              some (((b0 - 0xE0) * 0x1000 + (b1 - 0x80) * 0x40 + (b2 - 0x80)) :: rest)
          | none => none
        else none
      | _ => none
    else if b0 ≤ 0xF4 then
      match bs with
      | b1 :: b2 :: b3 :: bs4 =>
        let lo1 := if b0 == 0xF0 then 0x90 else 0x80
        let hi1 := if b0 == 0xF4 then 0x8F else 0xBF
        if lo1 ≤ b1 ∧ b1 ≤ hi1 ∧ 0x80 ≤ b2 ∧ b2 ≤ 0xBF ∧ 0x80 ≤ b3 ∧ b3 ≤ 0xBF then
          match utf8DecodeCodepoints bs4 with
          | some rest =>
              some (((b0 - 0xF0) * 0x40000 + (b1 - 0x80) * 0x1000
                     + (b2 - 0x80) * 0x40 + (b3 - 0x80)) :: rest)
          | none => none
        else none
      | _ => none
    else none

/-- `UltraliteResponse.text`: `content.decode()`, i.e. strict UTF-8
decoding of the body; `none` models the decoding error propagating. -/
def text (r : UltraliteResponse) : Option String :=
  (utf8DecodeCodepoints r.content).map (fun cps => String.mk (cps.map Char.ofNat))

/-- `UltraliteResponse.raise_for_status()`: raise `UltraliteError` when
`status_code` is not within `200..299`, otherwise do nothing. -/
def raise_for_status (r : UltraliteResponse) : Except Fault Unit :=
  if ¬ (200 ≤ r.status_code ∧ r.status_code ≤ 299) then
    .error (.ultraliteError
      ("Status code not in 2XX range: " ++ toString r.status_code ++ " - " ++ r.reason))
  else
    .ok ()

/-- The `UltraliteResponse.cookies` property: on first access (no
`_cookiejar` attribute yet) build a jar by extracting cookies from the
raw exchange and the request, store it, and return it; afterwards return
the stored jar.  `extract_cookies` is the behaviour of
`http.cookiejar.CookieJar.extract_cookies` on the raw data.  The result
pairs the returned jar with the (possibly updated) response object. -/
def cookies (extract_cookies : OpenResult → Request → CookieJar)
    (r : UltraliteResponse) : CookieJar × UltraliteResponse :=
  match r.cookiejarCache with
  | some jar => (jar, r)
  | none =>
      let jar := extract_cookies r.raw r.request
      (jar, { r with cookiejarCache := some jar })

/-- `UltraliteResponse._ensure_child_ssl(url, skip_ssl=False)`: when the
parent request used SSL and the child URL is not `https`, raise
`UltraliteSSLError` (unless `skip_ssl`). -/
def ensure_child_ssl (parentUsingSSL : Bool) (url : String) (skipSSL : Bool) :
    Except Fault Unit :=
  if parentUsingSSL && !(startswith url "https") then
    if !skipSSL then
      .error (.sslError "Chained request using non-SSL on SSL-secured parent!")
    else .ok ()
  else .ok ()

/-- `UltraliteResponse._chain(url, method, *a, **kw)`: check the SSL
downgrade rule, construct the child request, copy the parent's
`using_ssl` flag onto it, and resolve through the parent's
`request_context` (the same opener). -/
def chain (defaults : Dict) (parent : UltraliteResponse) (url method : String)
    (params : Option Dict) (headers : Dict) : Except Fault UltraliteResponse :=
  match ensure_child_ssl parent.request.using_ssl url false with
  | .error e => .error e
  | .ok _ =>
      let req := construct_request defaults method url params headers
      let req := { req with using_ssl := parent.request.using_ssl }
      .ok (resolve_call req parent.request_context)

/-- Chained `UltraliteResponse.head`. -/
def UltraliteResponse.head (defaults : Dict) (parent : UltraliteResponse)
    (url : String) (params : Option Dict) (headers : Dict) :
    Except Fault UltraliteResponse :=
  chain defaults parent url "HEAD" params headers

/-- Chained `UltraliteResponse.get`. -/
def UltraliteResponse.get (defaults : Dict) (parent : UltraliteResponse)
    (url : String) (params : Option Dict) (headers : Dict) :
    Except Fault UltraliteResponse :=
  chain defaults parent url "GET" params headers

/-- Chained `UltraliteResponse.post`. -/
def UltraliteResponse.post (defaults : Dict) (parent : UltraliteResponse)
    (url : String) (params : Option Dict) (headers : Dict) :
    Except Fault UltraliteResponse :=
  chain defaults parent url "POST" params headers

/-- Chained `UltraliteResponse.put`. -/
def UltraliteResponse.put (defaults : Dict) (parent : UltraliteResponse)
    (url : String) (params : Option Dict) (headers : Dict) :
    Except Fault UltraliteResponse :=
  chain defaults parent url "PUT" params headers

/-- Chained `UltraliteResponse.delete`. -/
def UltraliteResponse.delete (defaults : Dict) (parent : UltraliteResponse)
    (url : String) (params : Option Dict) (headers : Dict) :
    Except Fault UltraliteResponse :=
  chain defaults parent url "DELETE" params headers

/-- Whether a call result is a raised `NotImplementedError`. -/
def isNotImplementedFault : Except Fault UltraliteResponse → Bool
  | .error (.notImplementedError _) => true
  | _ => false

/-- Whether a call result is a normal return (no exception raised). -/
def isOkResult {α : Type} : Except Fault α → Bool
  | .ok _ => true
  | .error _ => false

/-- The `using_ssl` flag of the child request of a successful chained
call (`none` when the chained call raised). -/
def chainedSecureFlag : Except Fault UltraliteResponse → Option Bool
  | .ok r => some r.request.using_ssl
  | .error _ => none

/-- A network on which every exchange succeeds with an empty 200 body. -/
def exNet : List Handler → Request → OpenResult := fun _ _ => .success 200 "OK" [] []

/-- A handler-free opener over `exNet`. -/
def exOpener : Opener := { handlers := [], openF := exNet [] }

/-- An opener on which every exchange raises a transport-level
`URLError`. -/
def exFailOpener : Opener :=
  { handlers := [], openF := fun _ => .urlError "Name or service not known" }

/-- A plain-HTTP GET request descriptor. -/
def exHttpRequest : Request :=
  { method := "GET", url := "http://example.com", headers := [], using_ssl := false }

/-- An HTTPS GET request descriptor (secure flag set by `call_method`). -/
def exHttpsRequest : Request :=
  { method := "GET", url := "https://example.com", headers := [], using_ssl := true }

/-- A successful response to the plain-HTTP request. -/
def exHttpParent : UltraliteResponse :=
  mkResponse exHttpRequest (.success 200 "OK" [] []) exOpener

/-- A successful response to the HTTPS request. -/
def exHttpsParent : UltraliteResponse :=
  mkResponse exHttpsRequest (.success 200 "OK" [] []) exOpener

/-- A response arising from a transport failure. -/
def exFailResponse : UltraliteResponse :=
  mkResponse exHttpRequest (.urlError "Name or service not known") exFailOpener

end Ultralite

open Ultralite

/-! ## Helper lemmas -/

/-- The response built by `resolve_call` records exactly the request that
was passed in, whatever the exchange outcome. -/
lemma resolve_call_request (req : Request) (o : Opener) :
    (resolve_call req o).request = req := by
  unfold resolve_call mkResponse
  split <;> rfl

/-- The response built by `resolve_call` records exactly the opener that
performed the exchange. -/
lemma resolve_call_context (req : Request) (o : Opener) :
    (resolve_call req o).request_context = o := by
  unfold resolve_call mkResponse
  split <;> rfl

/-- A freshly constructed response has no cookie jar cached yet. -/
lemma mkResponse_cache (req : Request) (raw : OpenResult) (ctx : Opener) :
    (mkResponse req raw ctx).cookiejarCache = none := by
  unfold mkResponse
  split <;> rfl

/-- A response stores its raw exchange result unchanged. -/
lemma mkResponse_raw (req : Request) (raw : OpenResult) (ctx : Opener) :
    (mkResponse req raw ctx).raw = raw := by
  unfold mkResponse
  split <;> rfl

/-- A response stores its request unchanged. -/
lemma mkResponse_request (req : Request) (raw : OpenResult) (ctx : Opener) :
    (mkResponse req raw ctx).request = req := by
  unfold mkResponse
  split <;> rfl

/-- First access of `cookies`: extract from the raw exchange and cache. -/
lemma cookies_of_cache_none (extractF : OpenResult → Request → CookieJar)
    (r : UltraliteResponse) (h : r.cookiejarCache = none) :
    cookies extractF r
      = (extractF r.raw r.request,
         { r with cookiejarCache := some (extractF r.raw r.request) }) := by
  unfold cookies
  rw [h]

/-- Later accesses of `cookies`: return the cached jar, unchanged state. -/
lemma cookies_of_cache_some (extractF : OpenResult → Request → CookieJar)
    (r : UltraliteResponse) (jar : CookieJar) (h : r.cookiejarCache = some jar) :
    cookies extractF r = (jar, r) := by
  unfold cookies
  rw [h]

/-- `_ensure_child_ssl` either passes or raises the downgrade
`UltraliteSSLError`; no other outcome exists. -/
lemma ensure_child_ssl_cases (b : Bool) (url : String) (sk : Bool) :
    ensure_child_ssl b url sk = .ok ()
    ∨ ensure_child_ssl b url sk
        = .error (.sslError "Chained request using non-SSL on SSL-secured parent!") := by
  unfold ensure_child_ssl
  split
  · split
    · right; rfl
    · left; rfl
  · left; rfl

/-- A chained call never raises `NotImplementedError`: its only raise
site is the SSL-downgrade check. -/
lemma chain_never_notImplemented (defaults : Dict) (p : UltraliteResponse)
    (url method : String) (params : Option Dict) (headers : Dict) :
    isNotImplementedFault (chain defaults p url method params headers) = false := by
  unfold chain
  rcases ensure_child_ssl_cases p.request.using_ssl url false with h | h <;>
    rw [h] <;> rfl

/-! ## Claim theorems -/

/-- C1 (code defect): the claim says every process-wide default header
reaches the outgoing request unless the caller overrides it.  The source
computes the merged `outbound_headers` dict (where the default would
survive, as the second conjunct shows) but then hands the plain caller
`headers` to `urllib.request.Request`, so with the default mapping
`X-Default ↦ 1` and no caller headers, the constructed request carries
no headers at all. -/
theorem c1_default_headers_dropped :
    (construct_request [("X-Default", "1")] "GET" "http://example.com" none []).headers = []
    ∧ dlookup (dictUpdate [("X-Default", "1")] []) "X-Default" = some "1"
    ∧ (construct_request [("X-Default", "1")] "GET" "http://example.com" none
        [("User-Agent", "Ultralite")]).headers = [("User-Agent", "Ultralite")] :=
  ⟨rfl, rfl, rfl⟩

/-- C5: `raise_for_status()` returns normally exactly on status codes in
the inclusive range 200..299 and otherwise raises the status error
`UltraliteError` carrying the code and reason; the transport-failure
sentinel `-1` falls in the raising case. -/
theorem c5_raise_for_status_range (r : UltraliteResponse) :
    (200 ≤ r.status_code ∧ r.status_code ≤ 299 → raise_for_status r = .ok ())
    ∧ (¬ (200 ≤ r.status_code ∧ r.status_code ≤ 299) →
        raise_for_status r = .error (.ultraliteError
          ("Status code not in 2XX range: " ++ toString r.status_code ++ " - " ++ r.reason))) := by
  constructor <;> intro h <;> simp [raise_for_status, h]

/-- Witness for C5 at status 200 (no-op) and at the sentinel `-1`
(status error raised). -/
theorem c5_raise_for_status_range_witness :
    (200 ≤ exHttpParent.status_code ∧ exHttpParent.status_code ≤ 299)
    ∧ raise_for_status exHttpParent = .ok ()
    ∧ raise_for_status exFailResponse = .error (.ultraliteError
        ("Status code not in 2XX range: " ++ toString exFailResponse.status_code
          ++ " - " ++ exFailResponse.reason)) :=
  ⟨by decide, (c5_raise_for_status_range exHttpParent).1 (by decide),
   (c5_raise_for_status_range exFailResponse).2 (by decide)⟩

/-- C6: when the opener's exchange raises a transport-level `URLError`
(not a protocol error with payload), `resolve_call` still returns a
response — its return type is total, no fault propagates — with sentinel
status `-1`, empty header mapping, empty body bytes and the failure's
reason, which is non-empty whenever the underlying reason is. -/
theorem c6_transport_failure_shape (req : Request) (opener : Opener) (rsn : String)
    (hopen : opener.openF req = .urlError rsn) (hrsn : rsn ≠ "") :
    (resolve_call req opener).status_code = -1
    ∧ (resolve_call req opener).headers = []
    ∧ (resolve_call req opener).content = []
    ∧ (resolve_call req opener).reason = rsn
    ∧ (resolve_call req opener).reason ≠ "" := by
  unfold resolve_call
  rw [hopen]
  exact ⟨rfl, rfl, rfl, rfl, hrsn⟩

/-- Witness for C6 on an opener whose every exchange fails with an
unresolvable-host reason. -/
theorem c6_transport_failure_shape_witness :
    (resolve_call exHttpRequest exFailOpener).status_code = -1
    ∧ (resolve_call exHttpRequest exFailOpener).headers = []
    ∧ (resolve_call exHttpRequest exFailOpener).content = []
    ∧ (resolve_call exHttpRequest exFailOpener).reason = "Name or service not known"
    ∧ (resolve_call exHttpRequest exFailOpener).reason ≠ "" :=
  c6_transport_failure_shape exHttpRequest exFailOpener "Name or service not known"
    rfl (by decide)

/-- C9: on a freshly constructed response the first access of `cookies`
extracts from the raw exchange and the stored request; a second access —
even under a different extraction behaviour, so extraction cannot have
run again — returns the identical jar and leaves the response unchanged
(idempotence of access). -/
theorem c9_cookies_memoized (extractF extractF2 : OpenResult → Request → CookieJar)
    (req : Request) (raw : OpenResult) (ctx : Opener) :
    (cookies extractF (mkResponse req raw ctx)).1 = extractF raw req
    ∧ cookies extractF2 (cookies extractF (mkResponse req raw ctx)).2
        = cookies extractF (mkResponse req raw ctx) := by
  rw [cookies_of_cache_none extractF _ (mkResponse_cache req raw ctx)]
  constructor
  · rw [mkResponse_raw, mkResponse_request]
  · rw [cookies_of_cache_some extractF2 _ _ rfl]

/-- C10: responses built from a protocol-level error with payload or
from a transport failure have empty body bytes, so `text` succeeds on
them and yields the empty string — the decoding-error branch cannot be
reached from these two outcome shapes. -/
theorem c10_error_shapes_text_empty (request : Request) (ctx : Opener)
    (code : Int) (rs : String) (hdrs : Dict) (body : List Nat) (rsn : String) :
    (mkResponse request (.httpError code rs hdrs body) ctx).content = []
    ∧ text (mkResponse request (.httpError code rs hdrs body) ctx) = some ""
    ∧ (mkResponse request (.urlError rsn) ctx).content = []
    ∧ text (mkResponse request (.urlError rsn) ctx) = some "" :=
  ⟨rfl, rfl, rfl, rfl⟩

/-- C2: chaining from a response whose request used SSL to a URL not
beginning with "https" raises `UltraliteSSLError` — and does so for
every possible transport context, so the context's open is never
consulted; when the child URL is `https` or the parent was not secure,
the chained call returns normally, raising no such error. -/
theorem c2_chain_ssl_downgrade (defaults : Dict) (p : UltraliteResponse)
    (url method : String) (params : Option Dict) (headers : Dict) :
    (p.request.using_ssl = true → startswith url "https" = false →
      ∀ o : Opener,
        chain defaults { p with request_context := o } url method params headers
          = .error (.sslError "Chained request using non-SSL on SSL-secured parent!"))
    ∧ (startswith url "https" = true →
        isOkResult (chain defaults p url method params headers) = true)
    ∧ (p.request.using_ssl = false →
        isOkResult (chain defaults p url method params headers) = true) := by
  refine ⟨fun hssl hurl o => ?_, fun hurl => ?_, fun hssl => ?_⟩
  · simp [chain, ensure_child_ssl, hssl, hurl]
  · simp [chain, ensure_child_ssl, hurl, isOkResult]
  · simp [chain, ensure_child_ssl, hssl, isOkResult]

/-- Witness for C2: a secure parent chained to a plain-HTTP URL raises
the downgrade error (here over the all-successful opener `exOpener`,
whose open is evidently not reached), while the same parent chained to
an `https` URL returns normally. -/
theorem c2_chain_ssl_downgrade_witness :
    chain [] { exHttpsParent with request_context := exOpener } "http://example.com/x"
        "GET" none []
      = .error (.sslError "Chained request using non-SSL on SSL-secured parent!")
    ∧ isOkResult (chain [] exHttpsParent "https://example.com/x" "GET" none []) = true :=
  ⟨(c2_chain_ssl_downgrade [] exHttpsParent "http://example.com/x" "GET" none []).1
      rfl (by decide) exOpener,
   (c2_chain_ssl_downgrade [] exHttpsParent "https://example.com/x" "GET" none []).2.1
      (by decide)⟩

/-- C3 counterexample: the claim says a chained call from a non-secure
parent to an `https` URL yields a child descriptor whose secure flag is
true (parent's flag re-evaluated against the child URL, parent as
minimum).  The source instead copies the parent's flag verbatim
(`req.using_ssl = self.request.using_ssl`): chaining the plain-HTTP
parent to "https://example.com/x" yields a child request with
`using_ssl = false`. -/
theorem c3_chain_flag_counterexample :
    chainedSecureFlag (chain [] exHttpParent "https://example.com/x" "GET" none [])
      = some false :=
  rfl

/-- C3 (amended): for every chained call that passes the downgrade
check, the child descriptor's secure flag is the parent's flag copied
unchanged (not re-evaluated against the child URL), and the exchange is
executed through the very transport context of the parent. -/
theorem c3_chain_copies_flag_same_context (defaults : Dict) (p : UltraliteResponse)
    (url method : String) (params : Option Dict) (headers : Dict)
    (h : p.request.using_ssl = true → startswith url "https" = true) :
    chain defaults p url method params headers
      = .ok (resolve_call
          { construct_request defaults method url params headers with
              using_ssl := p.request.using_ssl }
          p.request_context)
    ∧ ∀ r, chain defaults p url method params headers = .ok r →
        r.request.using_ssl = p.request.using_ssl
        ∧ r.request_context = p.request_context := by
  have hok : ensure_child_ssl p.request.using_ssl url false = .ok () := by
    cases hssl : p.request.using_ssl with
    | false => simp [ensure_child_ssl]
    | true => simp [ensure_child_ssl, h hssl]
  have he : chain defaults p url method params headers
      = .ok (resolve_call
          { construct_request defaults method url params headers with
              using_ssl := p.request.using_ssl }
          p.request_context) := by
    unfold chain
    rw [hok]
  refine ⟨he, fun r hr => ?_⟩
  rw [he] at hr
  cases hr
  constructor
  · rw [resolve_call_request]
  · rw [resolve_call_context]

/-- Witness for C3 (amended): a secure parent chained to an `https`
URL; the child request reuses the parent's flag and context. -/
theorem c3_chain_copies_flag_same_context_witness :
    chain [] exHttpsParent "https://example.com/x" "GET" none []
      = .ok (resolve_call
          { construct_request [] "GET" "https://example.com/x" none [] with
              using_ssl := exHttpsParent.request.using_ssl }
          exHttpsParent.request_context) :=
  (c3_chain_copies_flag_same_context [] exHttpsParent "https://example.com/x" "GET"
      none [] (fun _ => by decide)).1

/-- C4 counterexample: the claim says chained `post` raises a
not-implemented fault and attempts no exchange.  On a plain-HTTP parent,
`UltraliteResponse.post` instead runs `_chain` to completion: the
exchange is performed through the parent's opener and a normal response
comes back (here with status 200), and no `NotImplementedError` arises. -/
theorem c4_chained_post_counterexample :
    UltraliteResponse.post [] exHttpParent "http://example.com/x" none []
      = .ok (resolve_call
          { method := "POST", url := "http://example.com/x", headers := [],
            using_ssl := false }
          exOpener)
    ∧ isNotImplementedFault
        (UltraliteResponse.post [] exHttpParent "http://example.com/x" none []) = false :=
  ⟨rfl, rfl⟩

/-- C4 (amended): top-level `post`/`put`/`delete` raise the
not-implemented fault for every combination of arguments and no exchange
is attempted (their faults are produced without consulting any network);
chained `post`/`put`/`delete` on a response object do NOT raise a
not-implemented fault — they build and execute the request like
`get`/`head` do. -/
theorem c4_not_implemented_top_level_only (url : String) (headers : Dict)
    (cookies : Option CookieJar) (params : Option Dict) (defaults : Dict)
    (p : UltraliteResponse) (curl : String) (cparams : Option Dict) (cheaders : Dict) :
    Ultralite.post url headers cookies params
      = .error (.notImplementedError "I'll get around to this bit.")
    ∧ Ultralite.put url headers cookies params
      = .error (.notImplementedError "I'll get around to this bit.")
    ∧ Ultralite.delete url headers cookies params
      = .error (.notImplementedError "I'll get around to this bit.")
    ∧ isNotImplementedFault (UltraliteResponse.post defaults p curl cparams cheaders) = false
    ∧ isNotImplementedFault (UltraliteResponse.put defaults p curl cparams cheaders) = false
    ∧ isNotImplementedFault (UltraliteResponse.delete defaults p curl cparams cheaders)
      = false :=
  ⟨rfl, rfl, rfl,
   chain_never_notImplemented defaults p curl "POST" cparams cheaders,
   chain_never_notImplemented defaults p curl "PUT" cparams cheaders,
   chain_never_notImplemented defaults p curl "DELETE" cparams cheaders⟩

/-- C7: for a top-level call on an `https` URL, SSL is mandatory — under
any environment in which `create_ssl_handler` fails the whole call
raises `UltraliteSSLError` (for every ambient network `env`, so no
insecure exchange can have been fallen back to), while on success the
response's request has `using_ssl = true` and the opener that performed
the exchange carries the constructed secure-transport handler. -/
theorem c7_https_mandatory (defaults : Dict) (env : List Handler → Request → OpenResult)
    (method url : String) (headers : Dict) (cookies : Option CookieJar)
    (params : Option Dict) (ctx : Nat) (msg : String)
    (h : startswith url "https" = true) :
    call_method defaults (.fail msg) env method url headers cookies params
      = .error (.sslError ("Failed to establish SSL context: " ++ msg))
    ∧ ∃ r, call_method defaults (.ok ctx) env method url headers cookies params = .ok r
        ∧ r.request.using_ssl = true
        ∧ Handler.sslHandler ctx ∈ r.request_context.handlers := by
  constructor
  · simp [call_method, create_ssl_handler, h]
  · cases cookies with
    | none =>
        refine ⟨resolve_call
            { construct_request defaults method url params headers with using_ssl := true }
            (build_opener env [Handler.sslHandler ctx]), ?_, ?_, ?_⟩
        · simp [call_method, create_ssl_handler, h]
        · rw [resolve_call_request]
        · rw [resolve_call_context]; simp [build_opener]
    | some jar =>
        refine ⟨resolve_call
            { construct_request defaults method url params headers with using_ssl := true }
            (build_opener env [Handler.sslHandler ctx, Handler.cookieProcessor jar]),
            ?_, ?_, ?_⟩
        · simp [call_method, create_ssl_handler, h]
        · rw [resolve_call_request]
        · rw [resolve_call_context]; simp [build_opener]

/-- Witness for C7 on "https://example.com": failing SSL setup raises,
successful setup marks the request secure and attaches the handler. -/
theorem c7_https_mandatory_witness :
    call_method [] (.fail "no ssl") exNet "GET" "https://example.com" [] none none
      = .error (.sslError ("Failed to establish SSL context: " ++ "no ssl"))
    ∧ ∃ r, call_method [] (.ok 0) exNet "GET" "https://example.com" [] none none = .ok r
        ∧ r.request.using_ssl = true
        ∧ Handler.sslHandler 0 ∈ r.request_context.handlers :=
  c7_https_mandatory [] exNet "GET" "https://example.com" [] none none 0 "no ssl"
    (by decide)

/-- Every member of a `&`-joined list occurs contiguously in the join. -/
lemma joinAmp_mem_decomp (x : String) :
    ∀ l : List String, x ∈ l → ∃ pre post, joinAmp l = pre ++ x ++ post := by
  intro l
  induction l with
  | nil => intro hx; cases hx
  | cons s rest ih =>
    intro hx
    cases rest with
    | nil =>
      have hxs : x = s := by simpa using hx
      subst hxs
      exact ⟨"", "", by rw [String.empty_append, String.append_empty]; rfl⟩
    | cons s2 rest2 =>
      rcases List.mem_cons.mp hx with h1 | h2
      · subst h1
        refine ⟨"", "&" ++ joinAmp (s2 :: rest2), ?_⟩
        show x ++ "&" ++ joinAmp (s2 :: rest2) = "" ++ x ++ ("&" ++ joinAmp (s2 :: rest2))
        rw [String.empty_append, String.append_assoc]
      · obtain ⟨pre, post, hJ⟩ := ih h2
        refine ⟨s ++ "&" ++ pre, post, ?_⟩
        show s ++ "&" ++ joinAmp (s2 :: rest2) = s ++ "&" ++ pre ++ x ++ post
        rw [hJ]
        simp only [String.append_assoc]

/-- Evaluation check of the query-string encoder: a space becomes `+`
and `&` is percent-encoded with uppercase hex. -/
lemma urlencode_eval :
    urlencode [("foo", "bar"), ("a b", "c&d")] = "foo=bar&a+b=c%26d" := by decide

/-- Evaluation check that a second `?` is appended verbatim when the URL
already carries a query string. -/
lemma construct_request_second_qmark :
    (construct_request [] "GET" "http://example.com/get?a=b"
        (some [("foo", "bar")]) []).url
      = "http://example.com/get?a=b?foo=bar" := by decide

/-- C8: with a non-empty parameter mapping the URL actually sent is the
given URL, a literal "?", then the URL-encoded query string, in which
the encoded form of every (key, value) pair occurs; the equation holds
verbatim for URLs that already contain a "?" (no merging — a second "?"
is appended, see `construct_request_second_qmark`), and with `params`
absent the URL is sent unchanged. -/
theorem c8_params_urlencoded (defaults : Dict) (method url : String) (headers : Dict)
    (ps : Dict) (_hps : ps ≠ []) :
    (construct_request defaults method url (some ps) headers).url
      = url ++ "?" ++ urlencode ps
    ∧ (∀ kv ∈ ps, ∃ pre post, urlencode ps = pre ++ encodePair kv ++ post)
    ∧ (construct_request defaults method url none headers).url = url := by
  refine ⟨?_, fun kv hkv => ?_, rfl⟩
  · show url ++ ("?" ++ urlencode ps) = url ++ "?" ++ urlencode ps
    rw [String.append_assoc]
  · exact joinAmp_mem_decomp (encodePair kv) (ps.map encodePair)
      (List.mem_map_of_mem _ hkv)

/-- Witness for C8 on a URL that already has a query string. -/
theorem c8_params_urlencoded_witness :
    (construct_request [] "GET" "http://example.com/get?a=b"
        (some [("foo", "bar")]) []).url
      = "http://example.com/get?a=b" ++ "?" ++ urlencode [("foo", "bar")]
    ∧ (∀ kv ∈ ([("foo", "bar")] : Dict), ∃ pre post,
        urlencode [("foo", "bar")] = pre ++ encodePair kv ++ post)
    ∧ (construct_request [] "GET" "http://example.com/get?a=b" none []).url
      = "http://example.com/get?a=b" :=
  c8_params_urlencoded [] "GET" "http://example.com/get?a=b" [] [("foo", "bar")]
    (by decide)
